import Mathlib

/-!
Verification of the lsst-ts/scriptrunner repository.

This file gives a shallow embedding of the two source files

  * `src/python/lsst/ts/scriptqueue/script_queue.py` (class `ScriptQueue`), and
  * `src/python/scriptrunner/script_loader.py` (class `ScriptLoader`),

and proves the specified properties of the command handlers, the queue
event payload, the constructor validation, and the script-info callback.

The companion model classes (`queue_model.QueueModel`, `loader_model.LoaderModel`)
are part of the repository but not among the given sources; where a property
requires their behaviour, or the behaviour of externals (`salobj`, `asyncio`,
the OS), those parts are modelled from the specification and marked as such
in their doc comments.  Durations and timestamps are modelled as rationals.
-/

namespace ScriptQueue

/-- Command-level failures raised by the `ScriptQueue` command handlers. -/
inductive CmdError
  | notEnabled (what : String)
  | expectedError (msg : String)
  | timeout
  deriving DecidableEq, Repr

/-- Terminal command acknowledgment: `COMPLETE` with a result string,
or a failure carrying the error. -/
inductive Ack
  | complete (result : String)
  | failed (err : CmdError)
  deriving DecidableEq, Repr

/-- The per-script record built by `do_add` and handed to `QueueModel.add`
(`ScriptInfo(index=..., cmd_id=..., is_standard=..., path=..., config=..., descr=...)`). -/
structure ScriptInfo where
  index : Int
  cmd_id : Int
  is_standard : Bool
  path : String
  config : String
  descr : String
  deriving DecidableEq, Repr

/-- Modelled from the spec: the state of `queue_model.QueueModel`, which is part of
the repository but not among the given sources.  It carries the `enabled` and
`running` booleans, the current-script index (`0` if none), the pending queue,
the history of finished scripts, and the allocator's next SAL index. -/
structure QueueModelState where
  enabled : Bool
  running : Bool
  current_index : Int
  queue : List ScriptInfo
  history : List ScriptInfo
  next_sal_index : Int
  deriving DecidableEq, Repr

/-- Payload of the `queue` event, as assembled by `ScriptQueue.put_queue`. -/
structure QueuePayload where
  enabled : Bool
  running : Bool
  currentSalIndex : Int
  length : Nat
  salIndices : List Int
  pastLength : Nat
  pastSalIndices : List Int
  deriving DecidableEq, Repr

/-- Payload of the `script` event, as assembled by `ScriptQueue.put_script`. -/
structure ScriptPayload where
  cmdId : Int
  salIndex : Int
  path : String
  isStandard : Bool
  timestamp : ℚ
  duration : ℚ
  processState : Int
  scriptState : Int
  deriving DecidableEq, Repr

/-- State of the `ScriptQueue` CSC: the model state, the (fixed) sizes of the
`salIndices` and `pastSalIndices` arrays of the `queue` event topic, the last
written `queue` event data, and logs of the published events. -/
structure CscState where
  model : QueueModelState
  salIndicesSize : Nat
  pastSalIndicesSize : Nat
  evt_queue_prev : Option QueuePayload
  emitted_queue : List QueuePayload
  emitted_script : List ScriptPayload
  emitted_available : List (String × String)
  deriving DecidableEq, Repr

/-- Modelled from the spec: `salobj.BaseCsc.assert_enabled`, external to this
repository.  Every command except `pause` calls it first; it raises unless the
service is in the `ENABLED` summary state (mirrored here by the single
`enabled` boolean the core reads). -/
def assert_enabled (st : CscState) (action : String) : Except CmdError Unit :=
  if st.model.enabled then Except.ok () else Except.error (CmdError.notEnabled action)

/-- Modelled from the spec: `salobj` topic `set_put` — writes the data and
publishes it when `force_output` is true or the data changed; returns the new
stored data and whether it published. -/
def set_put (prev : Option QueuePayload) (p : QueuePayload) (force : Bool) :
    Option QueuePayload × Bool :=
  if force then (some p, true)
  else if prev = some p then (prev, false)
  else (some p, true)

/-- Modelled from the spec: `asyncio.wait_for` — bounds an awaited operation by
a timeout, raising `TimeoutError` when the operation takes longer. -/
def wait_for (duration timeout : ℚ) (act : Except CmdError α) : Except CmdError α :=
  if duration ≤ timeout then act else Except.error CmdError.timeout

/-- The `queue` event payload assembled by `ScriptQueue.put_queue`:
fixed-size zero arrays with the first `min(len, N)` slots overwritten by the
pending-queue (resp. history) indices. -/
def put_queue_payload (N M : Nat) (m : QueueModelState) : QueuePayload :=
  let qinds := m.queue.map (fun info => info.index)
  let indlen := min m.queue.length N
  let sal_indices := qinds.take indlen ++ List.replicate (N - indlen) 0
  let hinds := m.history.map (fun info => info.index)
  let pastlen := min m.history.length M
  let past_sal_indices := hinds.take pastlen ++ List.replicate (M - pastlen) 0
  { enabled := m.enabled
    running := m.running
    currentSalIndex := m.current_index
    length := indlen
    salIndices := sal_indices
    pastLength := pastlen
    pastSalIndices := past_sal_indices }

/-- `ScriptQueue.put_queue`: build the payload and `set_put` it with
`force_output=True`, so it is published even if unchanged. -/
def put_queue_action (st : CscState) : CscState :=
  let p := put_queue_payload st.salIndicesSize st.pastSalIndicesSize st.model
  let r := set_put st.evt_queue_prev p true
  if r.2 then
    { st with evt_queue_prev := r.1, emitted_queue := st.emitted_queue ++ [p] }
  else
    { st with evt_queue_prev := r.1 }

/-- The operations of `queue_model.QueueModel` invoked by the command handlers.
That module is part of the repository but not among the given sources, so the
handlers are parameterised over it; every theorem below holds for all
instantiations. -/
structure ModelOps where
  add : CscState → ScriptInfo → Int → Int → Except CmdError CscState
  move : CscState → Int → Int → Int → Except CmdError CscState
  requeue : CscState → Int → Int → Int → Int → Except CmdError CscState
  stop_scripts : CscState → List Int → Bool → Except CmdError CscState
  get_script_info : CscState → Int → Bool → Except CmdError ScriptPayload
  find_available_scripts : CscState → List String × List String

/-- Fields of the `add` command (`id_data.cmd_id` plus `id_data.data`). -/
structure AddData where
  cmd_id : Int
  isStandard : Bool
  path : String
  config : String
  descr : String
  location : Int
  locationSalIndex : Int
  deriving DecidableEq, Repr

/-- Fields of the `move` command. -/
structure MoveData where
  salIndex : Int
  location : Int
  locationSalIndex : Int
  deriving DecidableEq, Repr

/-- Fields of the `requeue` command (`id_data.cmd_id` plus `id_data.data`). -/
structure RequeueData where
  cmd_id : Int
  salIndex : Int
  location : Int
  locationSalIndex : Int
  deriving DecidableEq, Repr

/-- Fields of the `stopScripts` command. -/
structure StopData where
  salIndices : List Int
  length : Int
  terminate : Bool
  deriving DecidableEq, Repr

/-- `ScriptQueue.do_pause`: sets `model.running = False`.  Issues no
`assert_enabled` call, so it is allowed in any service state. -/
def do_pause (st : CscState) : Except CmdError (CscState × Ack) :=
  Except.ok ({ st with model := { st.model with running := false } }, Ack.complete "")

/-- `ScriptQueue.do_resume`: `assert_enabled`, then `model.running = True`. -/
def do_resume (st : CscState) : Except CmdError (CscState × Ack) :=
  match assert_enabled st "resume" with
  | Except.error e => Except.error e
  | Except.ok _ =>
    Except.ok ({ st with model := { st.model with running := true } }, Ack.complete "")

/-- `ScriptQueue.do_showQueue`: `assert_enabled`, then `put_queue`. -/
def do_showQueue (st : CscState) : Except CmdError (CscState × Ack) :=
  match assert_enabled st "showQueue" with
  | Except.error e => Except.error e
  | Except.ok _ => Except.ok (put_queue_action st, Ack.complete "")

/-- `ScriptQueue.do_showScript`: `assert_enabled`, look the script up
(including history), then `put_script` with `force_output=True`. -/
def do_showScript (ops : ModelOps) (st : CscState) (salIndex : Int) :
    Except CmdError (CscState × Ack) :=
  match assert_enabled st "showScript" with
  | Except.error e => Except.error e
  | Except.ok _ =>
    match ops.get_script_info st salIndex true with
    | Except.error e => Except.error e
    | Except.ok p =>
      Except.ok ({ st with emitted_script := st.emitted_script ++ [p] }, Ack.complete "")

/-- `ScriptQueue.do_showAvailableScripts`: `assert_enabled`, then publish the
catalog joined with `":"`. -/
def do_showAvailableScripts (ops : ModelOps) (st : CscState) :
    Except CmdError (CscState × Ack) :=
  match assert_enabled st "showAvailableScripts" with
  | Except.error e => Except.error e
  | Except.ok _ =>
    let scripts := ops.find_available_scripts st
    let evt := (String.intercalate ":" scripts.1, String.intercalate ":" scripts.2)
    Except.ok ({ st with emitted_available := st.emitted_available ++ [evt] }, Ack.complete "")

/-- The `ScriptInfo` built at the start of `do_add`: its index is the model's
`next_sal_index` read at that moment. -/
def add_script_info (st : CscState) (data : AddData) : ScriptInfo :=
  { index := st.model.next_sal_index
    cmd_id := data.cmd_id
    is_standard := data.isStandard
    path := data.path
    config := data.config
    descr := data.descr }

/-- `ScriptQueue.do_add`: `assert_enabled`, build the `ScriptInfo`, await
`model.add`, then acknowledge `SAL__CMD_COMPLETE` with `result=str(index)`. -/
def do_add (ops : ModelOps) (st : CscState) (data : AddData) :
    Except CmdError (CscState × Ack) :=
  match assert_enabled st "add" with
  | Except.error e => Except.error e
  | Except.ok _ =>
    let script_info := add_script_info st data
    match ops.add st script_info data.location data.locationSalIndex with
    | Except.error e => Except.error e
    | Except.ok st2 => Except.ok (st2, Ack.complete (toString script_info.index))

/-- `ScriptQueue.do_move`: `assert_enabled`, then `model.move`. -/
def do_move (ops : ModelOps) (st : CscState) (data : MoveData) :
    Except CmdError (CscState × Ack) :=
  match assert_enabled st "move" with
  | Except.error e => Except.error e
  | Except.ok _ =>
    match ops.move st data.salIndex data.location data.locationSalIndex with
    | Except.error e => Except.error e
    | Except.ok st2 => Except.ok (st2, Ack.complete "")

/-- `ScriptQueue.do_requeue`: `assert_enabled`, then `model.requeue`. -/
def do_requeue (ops : ModelOps) (st : CscState) (data : RequeueData) :
    Except CmdError (CscState × Ack) :=
  match assert_enabled st "requeue" with
  | Except.error e => Except.error e
  | Except.ok _ =>
    match ops.requeue st data.salIndex data.cmd_id data.location data.locationSalIndex with
    | Except.error e => Except.error e
    | Except.ok st2 => Except.ok (st2, Ack.complete "")

/-- `ScriptQueue.do_stopScripts`: `assert_enabled`; raise `ExpectedError`
when `length <= 0`; otherwise await `model.stop_scripts` on the first
`length` listed indices under `asyncio.wait_for` with timeout
`5 + 0.2*length` seconds.  `stopDuration` is the (environment-determined)
time `model.stop_scripts` would take. -/
def do_stopScripts (ops : ModelOps) (stopDuration : ℚ) (st : CscState) (data : StopData) :
    Except CmdError (CscState × Ack) :=
  match assert_enabled st "stopScripts" with
  | Except.error e => Except.error e
  | Except.ok _ =>
    if data.length ≤ 0 then
      Except.error (CmdError.expectedError
        ("length=" ++ toString data.length ++ " must be positive"))
    else
      match wait_for stopDuration (5 + (2 / 10) * (data.length : ℚ))
          (ops.stop_scripts st (data.salIndices.take data.length.toNat) data.terminate) with
      | Except.error e => Except.error e
      | Except.ok st2 => Except.ok (st2, Ack.complete "")

/-- The commands accepted by the `ScriptQueue` CSC. -/
inductive Command
  | pause
  | resume
  | add (data : AddData)
  | move (data : MoveData)
  | requeue (data : RequeueData)
  | stopScripts (data : StopData)
  | showQueue
  | showScript (salIndex : Int)
  | showAvailableScripts
  deriving DecidableEq, Repr

/-- The SAL name of each command. -/
def cmdName : Command → String
  | Command.pause => "pause"
  | Command.resume => "resume"
  | Command.add _ => "add"
  | Command.move _ => "move"
  | Command.requeue _ => "requeue"
  | Command.stopScripts _ => "stopScripts"
  | Command.showQueue => "showQueue"
  | Command.showScript _ => "showScript"
  | Command.showAvailableScripts => "showAvailableScripts"

/-- Dispatch a command to its handler. -/
def execute (ops : ModelOps) (stopDuration : ℚ) (st : CscState) :
    Command → Except CmdError (CscState × Ack)
  | Command.pause => do_pause st
  | Command.resume => do_resume st
  | Command.add data => do_add ops st data
  | Command.move data => do_move ops st data
  | Command.requeue data => do_requeue ops st data
  | Command.stopScripts data => do_stopScripts ops stopDuration st data
  | Command.showQueue => do_showQueue st
  | Command.showScript salIndex => do_showScript ops st salIndex
  | Command.showAvailableScripts => do_showAvailableScripts ops st

/-- Run a command: a raised error leaves the CSC state as it was and the
command is acknowledged as failed. -/
def runCommand (ops : ModelOps) (stopDuration : ℚ) (st : CscState) (c : Command) :
    CscState × Ack :=
  match execute ops stopDuration st c with
  | Except.ok r => r
  | Except.error e => (st, Ack.failed e)

/-- `SCRIPT_INDEX_MULT = 100000`: the minimum Script SAL index is the
`ScriptQueue` SAL index times this, and the maximum is `SCRIPT_INDEX_MULT - 1`
more. -/
def SCRIPT_INDEX_MULT : Int := 100000

/-- `_MAX_SCRIPTQUEUE_INDEX = salobj.MAX_SAL_INDEX // SCRIPT_INDEX_MULT - 1`.
`salobj.MAX_SAL_INDEX` is external to this repository, so it is a parameter;
Python `//` on ints is floor division, `Int.fdiv`. -/
def maxScriptQueueIndex (maxSalIndex : Int) : Int :=
  Int.fdiv maxSalIndex SCRIPT_INDEX_MULT - 1

/-- `_LOAD_TIMEOUT = 20` (seconds), `script_queue.py` line 38. -/
def _LOAD_TIMEOUT : ℚ := 20

/-- Outcome of a successful `ScriptQueue.__init__`: the SAL index range handed
to the `QueueModel`. -/
structure InitOk where
  min_sal_index : Int
  max_sal_index : Int
  deriving DecidableEq, Repr

/-- `ScriptQueue.__init__` validation and index-range computation.  The
filesystem is represented by the predicate `isdir`.  Raising `ValueError`
is modelled as returning the error message. -/
def scriptQueueInit (maxSalIndex : Int) (isdir : String → Bool)
    (index : Int) (standardpath externalpath : String) : Except String InitOk :=
  if index < 0 ∨ index > maxScriptQueueIndex maxSalIndex then
    Except.error ("index " ++ toString index ++ " must be >= 0 and <= "
      ++ toString (maxScriptQueueIndex maxSalIndex))
  else if !(isdir standardpath) then
    Except.error ("No such dir standardpath=" ++ standardpath)
  else if !(isdir externalpath) then
    Except.error ("No such dir externalpath=" ++ externalpath)
  else if index * SCRIPT_INDEX_MULT + SCRIPT_INDEX_MULT - 1 > maxSalIndex then
    Except.error ("index " ++ toString index ++ " too large and a bug let this slip through")
  else
    Except.ok { min_sal_index := index * SCRIPT_INDEX_MULT,
                max_sal_index := index * SCRIPT_INDEX_MULT + SCRIPT_INDEX_MULT - 1 }

end ScriptQueue

namespace ScriptLoader

/-- `_LOAD_TIMEOUT = 5` (seconds), `script_loader.py` line 31. -/
def _LOAD_TIMEOUT : ℚ := 5

/-- Terminal acknowledgment of the loader's `load` command:
`SAL__CMD_COMPLETE`, `SAL__CMD_TIMEOUT`, or `SAL__CMD_FAILED` with
`result=str(e)`. -/
inductive LoadAck
  | complete
  | timeout
  | failed (result : String)
  deriving DecidableEq, Repr

/-- `ScriptLoader.do_load`'s asynchronous body: await `model.load` under
`asyncio.wait_for(..., timeout=_LOAD_TIMEOUT)`; ack `COMPLETE` on success,
`TIMEOUT` when the timeout expires, `FAILED` with the message on any other
exception.  `loadDuration` is the (environment-determined) time `model.load`
would take and `loadResult` its outcome (`loader_model` is part of the
repository but not among the given sources). -/
def do_load (loadDuration : ℚ) (loadResult : Except String Unit) : LoadAck :=
  if loadDuration ≤ _LOAD_TIMEOUT then
    match loadResult with
    | Except.ok _ => LoadAck.complete
    | Except.error e => LoadAck.failed e
  else LoadAck.timeout

/-- The process state reported by the `script_info` event
(`sallib.script_info_LOADED / _COMPLETE / _FAILED / _TERMINATED`).
The specification calls the clean-exit terminal state `DONE`; this source
file's constant for it is `COMPLETE`. -/
inductive ProcessState
  | LOADED
  | COMPLETE
  | FAILED
  | TERMINATED
  deriving DecidableEq, Repr

/-- A loaded script's record in `LoaderModel.info`, as read by
`put_script_info`; `returncode` is `script_info.process.returncode`,
`none` while the subprocess is still alive. -/
structure ScriptInfoL where
  cmd_id : Int
  index : Int
  path : String
  is_standard : Bool
  timestamp_start : ℚ
  timestamp_end : ℚ
  returncode : Option Int
  deriving DecidableEq, Repr

/-- Payload of the `script_info` event, as assembled by `put_script_info`. -/
structure ScriptInfoEvt where
  cmd_id : Int
  index : Int
  path : String
  is_standard : Bool
  timestamp_start : ℚ
  timestamp_end : ℚ
  process_state : ProcessState
  deriving DecidableEq, Repr

/-- `LoaderModel.info`: the loaded-script table, a Python dict keyed by
script index, iterated in insertion order. -/
abbrev InfoTable := List (Int × ScriptInfoL)

/-- `ScriptLoader.put_script_info`: emit the `script_info` event for one
script.  If `script_info.process.returncode` is set, the entry is first
deleted from `model.info` and the terminal process state is chosen from the
exit disposition (0 ↦ `COMPLETE`, positive ↦ `FAILED`, negative ↦
`TERMINATED`); otherwise the state is `LOADED`.  Returns the new table and
the list of events put (empty when `script_info` is `None`). -/
def put_script_info (info : InfoTable) (script_info : Option ScriptInfoL) :
    InfoTable × List ScriptInfoEvt :=
  match script_info with
  | none => (info, [])
  | some si =>
    let base : ScriptInfoEvt :=
      { cmd_id := si.cmd_id
        index := si.index
        path := si.path
        is_standard := si.is_standard
        timestamp_start := si.timestamp_start
        timestamp_end := si.timestamp_end
        process_state := ProcessState.LOADED }
    match si.returncode with
    | none => (info, [base])
    | some rc =>
      let info2 := info.filter (fun p => p.1 != si.index)
      let ps :=
        if rc = 0 then ProcessState.COMPLETE
        else if rc > 0 then ProcessState.FAILED
        else ProcessState.TERMINATED
      (info2, [{ base with process_state := ps }])

/-- Modelled from the spec: the operating system side of the subprocess table —
when a subprocess exits, its `returncode` becomes set.  This transition
happens outside the loader's code and does not remove the table entry. -/
def processExit (info : InfoTable) (index : Int) (rc : Int) : InfoTable :=
  info.map (fun p =>
    if p.1 == index then (p.1, { p.2 with returncode := some rc }) else p)

/-- Terminal acknowledgment of the loader's `list_loaded` command. -/
inductive ListAck
  | complete
  | failed (result : String)
  deriving DecidableEq, Repr

/-- The `for script_info in self.model.info.values()` loop of
`ScriptLoader.list_loaded`, threading the table through `put_script_info`.
CPython's dict iterator raises `RuntimeError` at the next `next()` call
after the dict's size changed, which the surrounding `except` turns into a
failed acknowledgment; the boolean records whether the loop completed. -/
def list_loaded_loop (origSize : Nat) (info : InfoTable) :
    List ScriptInfoL → InfoTable × List ScriptInfoEvt × Bool
  | [] =>
    if info.length ≠ origSize then (info, [], false) else (info, [], true)
  | si :: rest =>
    if info.length ≠ origSize then (info, [], false)
    else
      let r := put_script_info info (some si)
      let rr := list_loaded_loop origSize r.1 rest
      (rr.1, r.2 ++ rr.2.1, rr.2.2)

/-- `ScriptLoader.list_loaded`: put `script_info` for every table entry in
order; ack `COMPLETE` if the loop finishes, else `FAILED` with the exception
message (deleting a finished entry mid-iteration mutates the dict being
iterated). -/
def list_loaded (info : InfoTable) : InfoTable × List ScriptInfoEvt × ListAck :=
  let r := list_loaded_loop info.length info (info.map (fun p => p.2))
  (r.1, r.2.1,
    if r.2.2 then ListAck.complete
    else ListAck.failed "dictionary changed size during iteration")

end ScriptLoader

namespace ScriptQueue

/-- A trivial instantiation of the model operations, used to exercise the
handlers on concrete inputs. -/
def trivialOps : ModelOps where
  add := fun st _ _ _ => Except.ok st
  move := fun st _ _ _ => Except.ok st
  requeue := fun st _ _ _ _ => Except.ok st
  stop_scripts := fun st _ _ => Except.ok st
  get_script_info := fun _ _ _ => Except.ok
    { cmdId := 0, salIndex := 0, path := "", isStandard := false,
      timestamp := 0, duration := 0, processState := 0, scriptState := 0 }
  find_available_scripts := fun _ => ([], [])

/-- A sample enabled, running, empty model for index 1 (`min_sal_index = 100000`). -/
def sampleModel : QueueModelState :=
  { enabled := true, running := true, current_index := 0,
    queue := [], history := [], next_sal_index := 100000 }

/-- A sample enabled CSC state over `sampleModel`. -/
def sampleState : CscState :=
  { model := sampleModel, salIndicesSize := 2, pastSalIndicesSize := 2,
    evt_queue_prev := none, emitted_queue := [], emitted_script := [],
    emitted_available := [] }

/-- `sampleState` with the service not enabled. -/
def disabledState : CscState :=
  { sampleState with model := { sampleModel with enabled := false } }

/-- Sample `add` command data. -/
def addData0 : AddData :=
  { cmd_id := 42, isStandard := true, path := "slew.py", config := "",
    descr := "t1", location := 0, locationSalIndex := 0 }

/-- Sample `stopScripts` command data with `length = 2`. -/
def stopData0 : StopData :=
  { salIndices := [100000, 100001, 100002], length := 2, terminate := false }

/-- A pending/history entry with the given index. -/
def script (i : Int) : ScriptInfo :=
  { index := i, cmd_id := 0, is_standard := true, path := "", config := "", descr := "" }

/-- A model whose pending queue and history overflow small event arrays. -/
def overfullModel : QueueModelState :=
  { enabled := true, running := false, current_index := 100005,
    queue := [script 100006, script 100007, script 100008],
    history := [script 100001, script 100002],
    next_sal_index := 100009 }

/-- A sample filesystem with exactly two directories. -/
def isdir0 : String → Bool := fun s => s == "/std" || s == "/ext"

end ScriptQueue

namespace ScriptLoader

/-- A loaded script whose subprocess is still alive. -/
def liveScript : ScriptInfoL :=
  { cmd_id := 1, index := 100000, path := "slew.py", is_standard := true,
    timestamp_start := 0, timestamp_end := 0, returncode := none }

/-- `liveScript` after its subprocess exited with code 1. -/
def exited1 : ScriptInfoL := { liveScript with returncode := some 1 }

end ScriptLoader

namespace ScriptQueue

/-- C1: For every command other than `pause` (`resume`, `add`, `move`,
`requeue`, `stopScripts`, `showQueue`, `showScript`,
`showAvailableScripts`), invoking it while the service is not enabled fails
and leaves the whole CSC state — in particular the queue, history, current
slot, and running flag — unchanged; `pause` succeeds in any service state
and sets `running` to false, changing nothing else. -/
theorem c1_enabled_gating (ops : ModelOps) (stopDuration : ℚ) (st : CscState)
    (c : Command) (hdis : st.model.enabled = false) :
    (c ≠ Command.pause →
      runCommand ops stopDuration st c
        = (st, Ack.failed (CmdError.notEnabled (cmdName c))))
    ∧ ∀ s : CscState, runCommand ops stopDuration s Command.pause
        = ({ s with model := { s.model with running := false } }, Ack.complete "") := by
  constructor
  · intro hne
    cases c with
    | pause => exact absurd rfl hne
    | resume => simp [runCommand, execute, do_resume, assert_enabled, hdis, cmdName]
    | add data => simp [runCommand, execute, do_add, assert_enabled, hdis, cmdName]
    | move data => simp [runCommand, execute, do_move, assert_enabled, hdis, cmdName]
    | requeue data => simp [runCommand, execute, do_requeue, assert_enabled, hdis, cmdName]
    | stopScripts data =>
      simp [runCommand, execute, do_stopScripts, assert_enabled, hdis, cmdName]
    | showQueue => simp [runCommand, execute, do_showQueue, assert_enabled, hdis, cmdName]
    | showScript salIndex =>
      simp [runCommand, execute, do_showScript, assert_enabled, hdis, cmdName]
    | showAvailableScripts =>
      simp [runCommand, execute, do_showAvailableScripts, assert_enabled, hdis, cmdName]
  · intro s
    rfl

/-- Witness for C1 at a concrete disabled state: `resume` is refused with the
state unchanged, while `pause` succeeds and clears `running`. -/
theorem c1_enabled_gating_witness :
    disabledState.model.enabled = false
    ∧ runCommand trivialOps 0 disabledState Command.resume
        = (disabledState, Ack.failed (CmdError.notEnabled "resume"))
    ∧ runCommand trivialOps 0 disabledState Command.pause
        = ({ disabledState with
              model := { disabledState.model with running := false } },
           Ack.complete "") := by
  refine ⟨rfl, ?_, ?_⟩
  · exact (c1_enabled_gating trivialOps 0 disabledState Command.resume rfl).1 (by decide)
  · exact (c1_enabled_gating trivialOps 0 disabledState Command.resume rfl).2 disabledState

/-- C2: every `add` command that completes successfully is acknowledged
`COMPLETE` with a result equal to the decimal string of the index allocated
to the new script (the model's `next_sal_index` read when the `ScriptInfo`
was built). -/
theorem c2_add_ack (ops : ModelOps) (stopDuration : ℚ) (st : CscState)
    (data : AddData) (st2 : CscState) (ack : Ack)
    (h : execute ops stopDuration st (Command.add data) = Except.ok (st2, ack)) :
    ack = Ack.complete (toString (add_script_info st data).index)
    ∧ (add_script_info st data).index = st.model.next_sal_index := by
  refine ⟨?_, rfl⟩
  cases hA : assert_enabled st "add" with
  | error e => simp [execute, do_add, hA] at h
  | ok u =>
    cases hB : ops.add st (add_script_info st data) data.location data.locationSalIndex with
    | error e => simp [execute, do_add, hA, hB] at h
    | ok stx =>
      simp [execute, do_add, hA, hB] at h
      exact h.2.symm

/-- Witness for C2: a concrete successful `add` acks `COMPLETE` with result
`"100000"`, the decimal string of the allocated index. -/
theorem c2_add_ack_witness :
    execute trivialOps 0 sampleState (Command.add addData0)
        = Except.ok (sampleState, Ack.complete "100000")
    ∧ Ack.complete "100000"
        = Ack.complete (toString (add_script_info sampleState addData0).index) := by
  have h : execute trivialOps 0 sampleState (Command.add addData0)
      = Except.ok (sampleState, Ack.complete "100000") := rfl
  exact ⟨h, (c2_add_ack trivialOps 0 sampleState addData0 sampleState
    (Ack.complete "100000") h).1⟩

end ScriptQueue

namespace ScriptQueue

/-- C3: for a `stopScripts` command with `length = n > 0`, the model's stop
operation is applied to the first `n` listed indices and bounded by a timeout
of exactly `5 + 0.2 * n` seconds: if the operation takes at most that long
its outcome is returned, and otherwise the command fails with `Timeout`. -/
theorem c3_stop_timeout (ops : ModelOps) (stopDuration : ℚ) (st : CscState)
    (data : StopData) (hen : st.model.enabled = true) (hpos : 0 < data.length) :
    (stopDuration ≤ 5 + (2 / 10) * (data.length : ℚ) →
      execute ops stopDuration st (Command.stopScripts data)
        = match ops.stop_scripts st (data.salIndices.take data.length.toNat)
              data.terminate with
          | Except.error e => Except.error e
          | Except.ok st2 => Except.ok (st2, Ack.complete ""))
    ∧ (¬ stopDuration ≤ 5 + (2 / 10) * (data.length : ℚ) →
      execute ops stopDuration st (Command.stopScripts data)
        = Except.error CmdError.timeout) := by
  have hlen : ¬ data.length ≤ 0 := by omega
  constructor
  · intro hd
    simp [execute, do_stopScripts, assert_enabled, hen, hlen, wait_for, hd]
  · intro hd
    simp [execute, do_stopScripts, assert_enabled, hen, hlen, wait_for, hd]

/-- `10 s` exceeds the `5 + 0.2*2 = 5.4 s` timeout of a two-index
`stopScripts`. -/
theorem ten_exceeds_stop_timeout_two :
    ¬ (10 : ℚ) ≤ 5 + (2 / 10) * (stopData0.length : ℚ) := by
  norm_num [stopData0]

/-- `5 s` is within the `5.4 s` timeout of a two-index `stopScripts`. -/
theorem five_within_stop_timeout_two :
    (5 : ℚ) ≤ 5 + (2 / 10) * (stopData0.length : ℚ) := by
  norm_num [stopData0]

/-- Witness for C3 at `length = 2` (timeout `5.4 s`) and a stop operation
taking `10 s`: within-bound runs return the operation's outcome, and the
`10 s` run exceeds the bound, so the command fails with `Timeout`. -/
theorem c3_stop_timeout_witness :
    execute trivialOps 10 sampleState (Command.stopScripts stopData0)
        = Except.error CmdError.timeout
    ∧ execute trivialOps 5 sampleState (Command.stopScripts stopData0)
        = Except.ok (sampleState, Ack.complete "") := by
  constructor
  · exact (c3_stop_timeout trivialOps 10 sampleState stopData0 rfl (by decide)).2
      ten_exceeds_stop_timeout_two
  · exact (c3_stop_timeout trivialOps 5 sampleState stopData0 rfl (by decide)).1
      five_within_stop_timeout_two

/-- C4: a `stopScripts` command whose `length` field is not strictly positive
fails immediately with the `ExpectedError` "length=... must be positive",
leaving the entire CSC state — queue and emitted-event log included —
unchanged, before any script is signalled; for `length > 0` this validation
never fires: execution proceeds to the timed model stop operation. -/
theorem c4_stop_length_validation (ops : ModelOps) (stopDuration : ℚ)
    (st : CscState) (data : StopData) (hen : st.model.enabled = true) :
    (data.length ≤ 0 →
      runCommand ops stopDuration st (Command.stopScripts data)
        = (st, Ack.failed (CmdError.expectedError
            ("length=" ++ toString data.length ++ " must be positive"))))
    ∧ (0 < data.length →
      execute ops stopDuration st (Command.stopScripts data)
        = match wait_for stopDuration (5 + (2 / 10) * (data.length : ℚ))
              (ops.stop_scripts st (data.salIndices.take data.length.toNat)
                data.terminate) with
          | Except.error e => Except.error e
          | Except.ok st2 => Except.ok (st2, Ack.complete "")) := by
  constructor
  · intro hle
    simp [runCommand, execute, do_stopScripts, assert_enabled, hen, hle]
  · intro hpos
    have hlen : ¬ data.length ≤ 0 := by omega
    simp [execute, do_stopScripts, assert_enabled, hen, hlen]

/-- Witness for C4: with `length = 0` the command fails with the validation
error and the state is unchanged; with `length = 2` the validation passes. -/
theorem c4_stop_length_validation_witness :
    runCommand trivialOps 0 sampleState
        (Command.stopScripts { salIndices := [100000], length := 0, terminate := true })
        = (sampleState, Ack.failed (CmdError.expectedError "length=0 must be positive"))
    ∧ execute trivialOps 0 sampleState (Command.stopScripts stopData0)
        = match wait_for 0 (5 + (2 / 10) * ((stopData0.length : Int) : ℚ))
              (trivialOps.stop_scripts sampleState
                (stopData0.salIndices.take stopData0.length.toNat) stopData0.terminate) with
          | Except.error e => Except.error e
          | Except.ok st2 => Except.ok (st2, Ack.complete "") := by
  constructor
  · have h := (c4_stop_length_validation trivialOps 0 sampleState
      { salIndices := [100000], length := 0, terminate := true } rfl).1 (by decide)
    simpa using h
  · exact (c4_stop_length_validation trivialOps 0 sampleState stopData0 rfl).2 (by decide)

/-- C5: the `queue` event is always force-published — `put_queue` appends a
payload to the emitted log even when it is identical to the previous
emission — and two consecutive `showQueue` commands with no intervening
state change publish exactly two queue events with identical payloads. -/
theorem c5_queue_event_forced (ops : ModelOps) (stopDuration : ℚ)
    (st : CscState) (hen : st.model.enabled = true) :
    (∀ s : CscState, (put_queue_action s).emitted_queue
      = s.emitted_queue
        ++ [put_queue_payload s.salIndicesSize s.pastSalIndicesSize s.model])
    ∧ (runCommand ops stopDuration
          (runCommand ops stopDuration st Command.showQueue).1
          Command.showQueue).1.emitted_queue
      = st.emitted_queue
        ++ [put_queue_payload st.salIndicesSize st.pastSalIndicesSize st.model,
            put_queue_payload st.salIndicesSize st.pastSalIndicesSize st.model] := by
  constructor
  · intro s
    rfl
  · simp [runCommand, execute, do_showQueue, assert_enabled, hen,
      put_queue_action, set_put]

/-- Witness for C5: from a concrete enabled state, two consecutive
`showQueue` commands publish two identical queue-event payloads. -/
theorem c5_queue_event_forced_witness :
    (runCommand trivialOps 0 (runCommand trivialOps 0 sampleState Command.showQueue).1
        Command.showQueue).1.emitted_queue
      = sampleState.emitted_queue
        ++ [put_queue_payload sampleState.salIndicesSize sampleState.pastSalIndicesSize
              sampleState.model,
            put_queue_payload sampleState.salIndicesSize sampleState.pastSalIndicesSize
              sampleState.model] :=
  (c5_queue_event_forced trivialOps 0 sampleState rfl).2

end ScriptQueue

namespace ScriptQueue

/-- C8: constructing a `ScriptQueue` with component index `i` fails with
`ValueError` exactly when `i < 0`, `i > MAX_SAL_INDEX // 100000 - 1`, or
`standardpath` or `externalpath` is not an existing directory; on success the
script index range handed to the model is `min = i * 100000` through
`max = i * 100000 + 99999` inclusive (the internal "bug" re-check can never
fire). -/
theorem c8_init_validation (m : Int) (isdir : String → Bool) (index : Int)
    (sp ep : String) :
    ((∃ r, scriptQueueInit m isdir index sp ep = Except.ok r)
      ↔ (0 ≤ index ∧ index ≤ maxScriptQueueIndex m
          ∧ isdir sp = true ∧ isdir ep = true))
    ∧ ((0 ≤ index ∧ index ≤ maxScriptQueueIndex m
          ∧ isdir sp = true ∧ isdir ep = true) →
        scriptQueueInit m isdir index sp ep
          = Except.ok { min_sal_index := index * 100000,
                        max_sal_index := index * 100000 + 99999 }) := by
  have key : 0 ≤ index → index ≤ maxScriptQueueIndex m →
      ¬ index * SCRIPT_INDEX_MULT + SCRIPT_INDEX_MULT - 1 > m := by
    intro h0 h1
    unfold maxScriptQueueIndex at h1
    unfold SCRIPT_INDEX_MULT at h1 ⊢
    rw [Int.fdiv_eq_ediv m (by norm_num)] at h1
    omega
  have success : (0 ≤ index ∧ index ≤ maxScriptQueueIndex m
      ∧ isdir sp = true ∧ isdir ep = true) →
      scriptQueueInit m isdir index sp ep
        = Except.ok { min_sal_index := index * 100000,
                      max_sal_index := index * 100000 + 99999 } := by
    rintro ⟨h0, h1, h2, h3⟩
    unfold scriptQueueInit
    rw [if_neg (by omega), if_neg (by simp [h2]), if_neg (by simp [h3]),
      if_neg (key h0 h1)]
    unfold SCRIPT_INDEX_MULT
    congr 1
    congr 1
    omega
  refine ⟨⟨?_, fun h => ⟨_, success h⟩⟩, success⟩
  rintro ⟨r, hr⟩
  unfold scriptQueueInit at hr
  split_ifs at hr with h1 h2 h3 h4
  have h1a := not_or.mp h1
  exact ⟨not_lt.mp h1a.1, not_lt.mp h1a.2, by simpa using h2, by simpa using h3⟩

end ScriptQueue

namespace ScriptQueue

/-- Witness for C8: with `MAX_SAL_INDEX = 2147483647`, index 1 and two
existing directories, construction succeeds with the range
`[100000, 199999]`. -/
theorem c8_init_validation_witness :
    scriptQueueInit 2147483647 isdir0 1 "/std" "/ext"
      = Except.ok { min_sal_index := 100000, max_sal_index := 199999 } := by
  have h := (c8_init_validation 2147483647 isdir0 1 "/std" "/ext").2
    ⟨by decide, by decide, by decide, by decide⟩
  simpa using h

/-- C9: every `queue` event payload has `salIndices` of the fixed size `N`
and `pastSalIndices` of the fixed size `M`; the published lengths are
`min(len, N)` resp. `min(len, M)`; all slots beyond the published length are
zero; and when the pending queue (resp. history) holds more than `N` (resp.
`M`) entries, the published length is the array size and only the first `N`
(resp. `M`) indices appear, the rest being silently dropped. -/
theorem c9_queue_payload (N M : Nat) (m : QueueModelState) :
    (put_queue_payload N M m).salIndices.length = N
    ∧ (put_queue_payload N M m).pastSalIndices.length = M
    ∧ (put_queue_payload N M m).length = min m.queue.length N
    ∧ (put_queue_payload N M m).pastLength = min m.history.length M
    ∧ (put_queue_payload N M m).salIndices.drop (put_queue_payload N M m).length
        = List.replicate (N - (put_queue_payload N M m).length) 0
    ∧ (put_queue_payload N M m).pastSalIndices.drop (put_queue_payload N M m).pastLength
        = List.replicate (M - (put_queue_payload N M m).pastLength) 0
    ∧ (m.queue.length > N →
        (put_queue_payload N M m).length = N
        ∧ (put_queue_payload N M m).salIndices
            = (m.queue.map (fun info => info.index)).take N)
    ∧ (m.history.length > M →
        (put_queue_payload N M m).pastLength = M
        ∧ (put_queue_payload N M m).pastSalIndices
            = (m.history.map (fun info => info.index)).take M) := by
  have hq : ((m.queue.map (fun info => info.index)).take (min m.queue.length N)).length
      = min m.queue.length N := by
    simp [List.length_take]
  have hh : ((m.history.map (fun info => info.index)).take (min m.history.length M)).length
      = min m.history.length M := by
    simp [List.length_take]
  refine ⟨?_, ?_, rfl, rfl, ?_, ?_, ?_, ?_⟩
  · simp [put_queue_payload, List.length_take]
  · simp [put_queue_payload, List.length_take]
  · exact List.drop_left' hq
  · exact List.drop_left' hh
  · intro hover
    have hmin : min m.queue.length N = N := by omega
    refine ⟨hmin, ?_⟩
    simp only [put_queue_payload, hmin]
    simp
  · intro hover
    have hmin : min m.history.length M = M := by omega
    refine ⟨hmin, ?_⟩
    simp only [put_queue_payload, hmin]
    simp

/-- Witness for C9: with arrays of sizes `N = 2`, `M = 1` and a model with
three pending and two finished scripts, the payload reports length 2 with the
first two pending indices and past length 1 with the first history index. -/
theorem c9_queue_payload_witness :
    (put_queue_payload 2 1 overfullModel).length = 2
    ∧ (put_queue_payload 2 1 overfullModel).salIndices = [100006, 100007]
    ∧ (put_queue_payload 2 1 overfullModel).pastLength = 1
    ∧ (put_queue_payload 2 1 overfullModel).pastSalIndices = [100001] := by
  have h := c9_queue_payload 2 1 overfullModel
  have h7 := h.2.2.2.2.2.2.1 (by decide)
  have h8 := h.2.2.2.2.2.2.2 (by decide)
  exact ⟨h7.1, by simpa using h7.2, h8.1, by simpa using h8.2⟩

end ScriptQueue

namespace ScriptLoader

/-- C6: when a script subprocess has exited (`returncode` set), the process
state reported by `put_script_info` is determined solely by the exit
disposition: exit code 0 maps to the clean-exit terminal state (`COMPLETE`
in this source, `DONE` in the specification's vocabulary), any positive exit
code maps to `FAILED`, and a signal-initiated exit (negative return code)
maps to `TERMINATED`. -/
theorem c6_exit_state (info : InfoTable) (si : ScriptInfoL) (rc : Int)
    (h : si.returncode = some rc) :
    (put_script_info info (some si)).2.map (fun e => e.process_state)
      = [if rc = 0 then ProcessState.COMPLETE
         else if 0 < rc then ProcessState.FAILED
         else ProcessState.TERMINATED] := by
  simp [put_script_info, h]

/-- Witness for C6: a script that exited with code 0 is reported with the
clean-exit terminal state. -/
theorem c6_exit_state_witness :
    (put_script_info [] (some { liveScript with returncode := some 0 })).2.map
        (fun e => e.process_state)
      = [ProcessState.COMPLETE] := by
  have h := c6_exit_state [] { liveScript with returncode := some 0 } 0 rfl
  simpa using h

/-- C7 counterexample: the claim says the load timeout in the loader variant
is 20 seconds, but `script_loader.py` line 31 sets `_LOAD_TIMEOUT = 5`; a
load taking 10 seconds — within the claimed 20-second bound — is in fact
acknowledged with a timeout failure. -/
theorem c7_counterexample :
    ScriptLoader._LOAD_TIMEOUT ≠ 20
    ∧ do_load 10 (Except.ok ()) = LoadAck.timeout := by
  constructor
  · norm_num [_LOAD_TIMEOUT]
  · norm_num [do_load, _LOAD_TIMEOUT]

/-- C7 (amended): the load timeout for `add`/`requeue` in the script-queue
variant is 20 seconds; the loader variant's load timeout is 5 seconds, and
exactly when it expires the `load` command fails with a timeout
acknowledgment. -/
theorem c7_amended :
    ScriptQueue._LOAD_TIMEOUT = 20
    ∧ ScriptLoader._LOAD_TIMEOUT = 5
    ∧ (∀ (d : ℚ) (r : Except String Unit),
        ScriptLoader._LOAD_TIMEOUT < d → do_load d r = LoadAck.timeout)
    ∧ (∀ (d : ℚ) (r : Except String Unit),
        d ≤ ScriptLoader._LOAD_TIMEOUT → do_load d r ≠ LoadAck.timeout) := by
  refine ⟨rfl, rfl, ?_, ?_⟩
  · intro d r hd
    simp [do_load, not_le.mpr hd]
  · intro d r hd
    cases r with
    | ok u => simp [do_load, hd]
    | error e => simp [do_load, hd]

/-- Witness for C7 (amended): a 10-second load times out after the 5-second
bound, while a 3-second load does not. -/
theorem c7_amended_witness :
    do_load 10 (Except.ok ()) = LoadAck.timeout
    ∧ do_load 3 (Except.error "boom") ≠ LoadAck.timeout := by
  constructor
  · exact c7_amended.2.2.1 10 (Except.ok ()) (by decide)
  · exact c7_amended.2.2.2 3 (Except.error "boom") (by decide)

end ScriptLoader

namespace ScriptLoader

/-- Computation of `put_script_info` on a script whose process has exited:
the entry is deleted from the table and a single event with the terminal
process state is put. -/
theorem put_script_info_exited (info : InfoTable) (si : ScriptInfoL) (rc : Int)
    (h : si.returncode = some rc) :
    put_script_info info (some si)
      = (info.filter (fun p => p.1 != si.index),
         [{ cmd_id := si.cmd_id, index := si.index, path := si.path,
            is_standard := si.is_standard, timestamp_start := si.timestamp_start,
            timestamp_end := si.timestamp_end,
            process_state :=
              if rc = 0 then ProcessState.COMPLETE
              else if rc > 0 then ProcessState.FAILED
              else ProcessState.TERMINATED }]) := by
  simp [put_script_info, h]

/-- Once the table size differs from the size recorded at iterator creation,
the `list_loaded` loop raises `RuntimeError` at the next `next()` call,
before putting any further event. -/
theorem list_loaded_loop_size_mismatch (origSize : Nat) (info : InfoTable)
    (l : List ScriptInfoL) (h : info.length ≠ origSize) :
    list_loaded_loop origSize info l = (info, [], false) := by
  cases l with
  | nil => simp [list_loaded_loop, h]
  | cons x xs => simp [list_loaded_loop, h]

/-- C10 counterexample: the claim's consequence fails.  Start from a table
holding one loaded script with a live process — which the claim itself deems
reachable — and let its subprocess exit (an OS transition that does not touch
the table).  The table now holds a script whose process has exited, and a
`list_loaded` issued at this point *does* report that finished script: it
emits its event with terminal state `COMPLETE`, then fails with the
dictionary-mutation error. -/
theorem c10_counterexample :
    (processExit [(100000, liveScript)] 100000 0).map (fun p => p.2.returncode)
        = [some 0]
    ∧ (list_loaded (processExit [(100000, liveScript)] 100000 0)).2.1.map
        (fun e => (e.index, e.process_state)) = [(100000, ProcessState.COMPLETE)]
    ∧ (list_loaded (processExit [(100000, liveScript)] 100000 0)).2.2
        = ListAck.failed "dictionary changed size during iteration" :=
  ⟨rfl, rfl, rfl⟩

/-- C10 (amended): whenever the script-info callback observes a script whose
process has exited, the script's entry is deleted from the loaded-script
table before the event is emitted, and exactly one event — with a terminal,
non-`LOADED` state — is put for it; however, the table may still contain
scripts whose process has already exited but was not yet observed, and a
`list_loaded` over a table headed by such a script reports it with its
terminal state (and then fails with the dictionary-mutation error). -/
theorem c10_amended (info : InfoTable) (si : ScriptInfoL) (rc : Int)
    (h : si.returncode = some rc) :
    ((put_script_info info (some si)).1.all (fun p => p.1 != si.index) = true)
    ∧ (put_script_info info (some si)).2.map (fun e => e.index) = [si.index]
    ∧ (∀ e ∈ (put_script_info info (some si)).2, e.process_state ≠ ProcessState.LOADED)
    ∧ (∀ rest : InfoTable, rest.all (fun p => p.1 != si.index) = true →
        (list_loaded ((si.index, si) :: rest)).2.1.map (fun e => e.index) = [si.index]
        ∧ (∀ e ∈ (list_loaded ((si.index, si) :: rest)).2.1,
            e.process_state ≠ ProcessState.LOADED)
        ∧ (list_loaded ((si.index, si) :: rest)).2.2
            = ListAck.failed "dictionary changed size during iteration") := by
  refine ⟨?_, ?_, ?_, ?_⟩
  · rw [put_script_info_exited info si rc h]
    simp only [List.all_eq_true]
    intro p hp
    exact (List.mem_filter.mp hp).2
  · rw [put_script_info_exited info si rc h]
    simp
  · rw [put_script_info_exited info si rc h]
    intro e he
    simp only [List.mem_singleton] at he
    subst he
    split_ifs <;> simp
  · intro rest hrest
    have hfe : ((si.index, si) :: rest).filter (fun p => p.1 != si.index) = rest := by
      rw [List.filter_cons]
      simp only [bne_self_eq_false, Bool.false_eq_true, if_false]
      rw [List.filter_eq_self]
      intro a ha
      exact List.all_eq_true.mp hrest a ha
    have hloop :
        list_loaded_loop (((si.index, si) :: rest).length) ((si.index, si) :: rest)
            (((si.index, si) :: rest).map (fun p => p.2))
          = (rest, (put_script_info ((si.index, si) :: rest) (some si)).2, false) := by
      simp only [List.map_cons]
      rw [list_loaded_loop]
      rw [if_neg (by simp)]
      rw [put_script_info_exited _ si rc h, hfe]
      simp only [list_loaded_loop_size_mismatch (((si.index, si) :: rest).length) rest
        (rest.map (fun p => p.2)) (by simp)]
      simp
    have hev : (put_script_info ((si.index, si) :: rest) (some si)).2.map
        (fun e => e.index) = [si.index] := by
      rw [put_script_info_exited _ si rc h]
      simp
    refine ⟨?_, ?_, ?_⟩
    · show (list_loaded_loop (((si.index, si) :: rest).length) ((si.index, si) :: rest)
          (((si.index, si) :: rest).map (fun p => p.2))).2.1.map (fun e => e.index)
        = [si.index]
      rw [hloop]
      exact hev
    · intro e he
      have he2 : e ∈ (list_loaded_loop (((si.index, si) :: rest).length)
          ((si.index, si) :: rest) (((si.index, si) :: rest).map (fun p => p.2))).2.1 := he
      rw [hloop, put_script_info_exited _ si rc h] at he2
      simp only [List.mem_singleton] at he2
      subst he2
      split_ifs <;> simp
    · show (if (list_loaded_loop (((si.index, si) :: rest).length) ((si.index, si) :: rest)
            (((si.index, si) :: rest).map (fun p => p.2))).2.2 = true
          then ListAck.complete
          else ListAck.failed "dictionary changed size during iteration")
        = ListAck.failed "dictionary changed size during iteration"
      rw [hloop]
      simp

/-- Witness for C10 (amended) at a concrete exited script: the entry is
deleted from a concrete table, and `list_loaded` on a singleton table holding
the exited script reports it (one event, for its index) and fails with the
dictionary-mutation error. -/
theorem c10_amended_witness :
    ((put_script_info [(200, liveScript)] (some exited1)).1.all
        (fun p => p.1 != exited1.index) = true)
    ∧ (list_loaded [(exited1.index, exited1)]).2.1.map (fun e => e.index)
        = [exited1.index]
    ∧ (list_loaded [(exited1.index, exited1)]).2.2
        = ListAck.failed "dictionary changed size during iteration" := by
  have h := c10_amended [(200, liveScript)] exited1 1 rfl
  have h4 := h.2.2.2 [] rfl
  exact ⟨h.1, h4.1, h4.2.2⟩

end ScriptLoader
